import Mathlib

set_option maxHeartbeats 1000000

/-! Shallow embedding of src/app.py, the ATM location search tool.

Python strings are modelled as List Char. A pandas NaN cell reaches the
zip-code pipeline as the string "nan", because process_zip_codes first runs
astype(str) on the column (app.py line 146); clean_zip and diagnose_zip_issue
therefore always receive actual strings, and their pd.isna branches never fire
on this path (they are subsumed by the 'nan' membership test that follows
them, which we embed). -/

/-- Python str.lower(), applied characterwise (app.py only lowercases header
names and zip strings, all ASCII). -/
def pyLower (s : List Char) : List Char := s.map Char.toLower

/-- Python str.strip(): drop leading and trailing whitespace. -/
def pyStrip (s : List Char) : List Char :=
  ((s.dropWhile Char.isWhitespace).reverse.dropWhile Char.isWhitespace).reverse

/-- Python str.isdigit(): true exactly on nonempty all-digit strings. -/
def pyIsdigit (s : List Char) : Bool := !s.isEmpty && s.all Char.isDigit

/-- Python str.zfill(w) for strings with no sign character: left-pad with '0'
to width w (clean_zip only calls zfill on all-digit strings, so the sign
handling of zfill is dead there). -/
def zfill (w : Nat) (s : List Char) : List Char :=
  List.replicate (w - s.length) '0' ++ s

/-- Python s.split('-')[0]: the prefix of s before its first hyphen. -/
def splitHyphenHead (s : List Char) : List Char := s.takeWhile (fun c => c ≠ '-')

/-- clean_zip (app.py lines 152-172). The source strips twice (lines 156 and
159); strip is idempotent so one pyStrip is the same function. The membership
test on the lowercased string covers the three literals 'nan', 'none', ''. -/
def clean_zip (zip_code : List Char) : Option (List Char) :=
  if pyLower zip_code ∈ ["nan".toList, "none".toList, ([] : List Char)] then none
  else
    let zip_str := pyStrip zip_code
    let zip_str := if zip_str.contains '-' then splitHyphenHead zip_str else zip_str
    if pyIsdigit zip_str then
      if zip_str.length ≤ 5 then some (zfill 5 zip_str)
      else if zip_str.length = 9 then some (zip_str.take 5)
      else none
    else none

/-- diagnose_zip_issue (app.py lines 211-235). The cleaned_zip argument is
unused in the source body too; the messages carry the digit count exactly as
the f-strings do. -/
def diagnose_zip_issue (original_zip : List Char) (_cleaned_zip : Option (List Char)) :
    List Char :=
  if pyLower original_zip ∈ ["nan".toList, "none".toList, ([] : List Char)] then
    "Missing/Empty zip code".toList
  else
    let original_str := pyStrip original_zip
    if original_str = [] then "Empty zip code".toList
    else if !original_str.any Char.isDigit then "No digits in zip code".toList
    else
      let digits_only := original_str.filter Char.isDigit
      if digits_only.length < 5 then
        ("Too few digits (" ++ toString digits_only.length ++ " digits)").toList
      else if digits_only.length > 9 then
        ("Too many digits (" ++ toString digits_only.length ++ " digits)").toList
      else if digits_only.length ∈ [6, 7, 8] then
        ("Unusual zip length (" ++ toString digits_only.length ++ " digits)").toList
      else "Other zip format issue".toList

/-- The regex pass of app.py line 149: str.replace(r'[^\d-]', '', regex=True)
keeps only digits and hyphens. -/
def strip_non_digit_hyphen (s : List Char) : List Char :=
  s.filter (fun c => c.isDigit || c == '-')

/-- The valid mask of app.py lines 178-182: cleaned_zip not NA, length 5, all
digits. -/
def valid_mask (cleaned_zip : Option (List Char)) : Bool :=
  match cleaned_zip with
  | some s => decide (s.length = 5) && pyIsdigit s
  | none => false

/-- One row of process_zip_codes (app.py lines 146-193) on the string form of
its raw postal cell: none when the row lands in the valid partition, some
issue text when it is invalid. The diagnosis at line 193 is computed from
working_zip, which line 149 has already stripped of every character that is
not a digit or hyphen — not from the original raw value. -/
def row_invalid_diagnosis (raw : List Char) : Option (List Char) :=
  let working_zip := strip_non_digit_hyphen raw
  let cleaned_zip := clean_zip working_zip
  if valid_mask cleaned_zip then none
  else some (diagnose_zip_issue working_zip cleaned_zip)

/-! Helper lemmas about digit characters and digit strings, shared by the
claims about the zip pipeline. -/

lemma char_digit_toNat {c : Char} (h : c.isDigit = true) :
    48 ≤ c.toNat ∧ c.toNat ≤ 57 := by
  simp only [Char.isDigit, Bool.and_eq_true, decide_eq_true_eq] at h
  exact ⟨UInt32.le_toNat_of_le (by norm_num [UInt32.size]) h.1,
         UInt32.toNat_le_of_le (by norm_num [UInt32.size]) h.2⟩

lemma toLower_digit {c : Char} (h : c.isDigit = true) : c.toLower = c := by
  obtain ⟨h1, h2⟩ := char_digit_toNat h
  unfold Char.toLower
  rw [if_neg]
  omega

lemma not_whitespace_digit {c : Char} (h : c.isDigit = true) : c.isWhitespace = false := by
  obtain ⟨h1, h2⟩ := char_digit_toNat h
  simp only [Char.isWhitespace, Bool.or_eq_false_iff, decide_eq_false_iff_not]
  refine ⟨⟨⟨?_, ?_⟩, ?_⟩, ?_⟩ <;>
    (intro hc; subst hc; exact absurd h1 (by decide))

lemma dropWhile_eq_self_of_not {p : Char → Bool} {s : List Char}
    (h : ∀ c ∈ s, p c = false) : s.dropWhile p = s := by
  cases s with
  | nil => rfl
  | cons a l => rw [List.dropWhile_cons_of_neg]; simp [h a (by simp)]

lemma contains_hyphen_digits {s : List Char} (h : ∀ c ∈ s, c.isDigit = true) :
    s.contains '-' = false := by
  cases hc : s.contains '-' with
  | false => rfl
  | true =>
    exfalso
    have hm : '-' ∈ s := List.mem_of_elem_eq_true (by simpa [List.contains] using hc)
    exact absurd (h _ hm) (by decide)

lemma pyLower_digits {s : List Char} (h : ∀ c ∈ s, c.isDigit = true) : pyLower s = s := by
  unfold pyLower
  induction s with
  | nil => rfl
  | cons a l ih =>
    rw [List.map_cons, toLower_digit (h a (by simp)), ih (fun c hc => h c (by simp [hc]))]

lemma pyStrip_digits {s : List Char} (h : ∀ c ∈ s, c.isDigit = true) : pyStrip s = s := by
  unfold pyStrip
  rw [dropWhile_eq_self_of_not (fun c hc => not_whitespace_digit (h c hc)),
      dropWhile_eq_self_of_not
        (fun c hc => not_whitespace_digit (h c (List.mem_reverse.mp hc))),
      List.reverse_reverse]

lemma pyIsdigit_chars {s : List Char} (h : pyIsdigit s = true) :
    s ≠ [] ∧ ∀ c ∈ s, c.isDigit = true := by
  simp only [pyIsdigit, Bool.and_eq_true, List.all_eq_true, Bool.not_eq_true',
    List.isEmpty_eq_false] at h
  exact ⟨by simpa using h.1, h.2⟩

lemma not_lower_literal {s : List Char} (hne : s ≠ [])
    (hall : ∀ c ∈ s, c.isDigit = true) :
    ¬ pyLower s ∈ ["nan".toList, "none".toList, ([] : List Char)] := by
  rw [pyLower_digits hall]
  intro hm
  simp only [List.mem_cons, List.mem_singleton, List.not_mem_nil, or_false] at hm
  rcases hm with h | h | h
  · exact absurd (hall 'n' (h ▸ (by decide : 'n' ∈ "nan".toList))) (by decide)
  · exact absurd (hall 'n' (h ▸ (by decide : 'n' ∈ "none".toList))) (by decide)
  · exact hne (by simpa using h)

lemma clean_zip_all_digits (s : List Char) (hdig : pyIsdigit s = true) :
    clean_zip s =
      (if s.length ≤ 5 then some (zfill 5 s)
       else if s.length = 9 then some (s.take 5) else none) := by
  obtain ⟨hne, hall⟩ := pyIsdigit_chars hdig
  unfold clean_zip
  rw [if_neg (not_lower_literal hne hall)]
  simp only [pyStrip_digits hall, contains_hyphen_digits hall, Bool.false_eq_true, if_false,
    hdig, if_true]

/-- C2: the postal-code normalizer clean_zip, on all-digit inputs (the shape
every input has after the non-digit/non-hyphen stripping pass when no hyphen
survived), left-zero-pads inputs of length at most 5 to 5 digits — so every
valid 5-digit code maps to itself and "123" maps to "00123" — takes the first
5 digits of a 9-digit input, and returns none (Invalid) for any other digit
length; the ZIP+4 forms "12345-6789" and "123456789" both map to "12345". -/
theorem clean_zip_spec (s : List Char) (hdig : pyIsdigit s = true) :
    (s.length ≤ 5 → clean_zip s = some (zfill 5 s)) ∧
    (s.length = 5 → clean_zip s = some s) ∧
    (s.length = 9 → clean_zip s = some (s.take 5)) ∧
    (5 < s.length → s.length ≠ 9 → clean_zip s = none) ∧
    clean_zip "12345-6789".toList = some "12345".toList ∧
    clean_zip "123456789".toList = some "12345".toList ∧
    clean_zip "123".toList = some "00123".toList := by
  have hz := clean_zip_all_digits s hdig
  refine ⟨fun h => by rw [hz, if_pos h], fun h => ?_, fun h => ?_, fun h h9 => ?_,
    by decide, by decide, by decide⟩
  · rw [hz, if_pos (le_of_eq h)]
    unfold zfill
    rw [h]
    simp
  · rw [hz, if_neg (by omega), if_pos h]
  · rw [hz, if_neg (by omega), if_neg h9]

/-- C2 witness: clean_zip left-pads the concrete all-digit input "123". -/
theorem clean_zip_spec_witness : clean_zip "123".toList = some (zfill 5 "123".toList) :=
  (clean_zip_spec "123".toList (by decide)).1 (by decide)

/-- C5: the diagnosis pass runs over the stripped working_zip, not the
original raw value. For the raw value "abc" (nonempty, no digits) the stripped
value is "", so the record is diagnosed "Missing/Empty zip code" — while
diagnose_zip_issue applied to the original raw value "abc" would have said
"No digits in zip code", which is what the spec expects. -/
theorem diagnose_runs_on_stripped_value :
    row_invalid_diagnosis "abc".toList = some ("Missing/Empty zip code".toList) ∧
    strip_non_digit_hyphen "abc".toList = [] ∧
    diagnose_zip_issue "abc".toList (clean_zip (strip_non_digit_hyphen "abc".toList)) =
      "No digits in zip code".toList := by
  decide

/-- C9 counterexample: the raw value "-123456789" has digit count exactly 9,
yet normalization rejects it (split('-')[0] is empty), so it IS passed to the
diagnosis function, which labels it "Other zip format issue". -/
theorem nine_digit_reaches_diagnosis :
    ("-123456789".toList.filter Char.isDigit).length = 9 ∧
    row_invalid_diagnosis "-123456789".toList =
      some ("Other zip format issue".toList) := by
  decide

/-- C9 amended: a raw value with digit count exactly 9 whose stripped form
contains no hyphen is always accepted by normalization (clean_zip keeps its
first five digits), hence never reaches the diagnosis function; with a hyphen
the value can be rejected and diagnosed, as "-123456789" shows. -/
theorem nine_digit_hyphen_free_not_diagnosed (raw : List Char)
    (hh : '-' ∉ strip_non_digit_hyphen raw)
    (h9 : (raw.filter Char.isDigit).length = 9) :
    row_invalid_diagnosis raw = none := by
  have hraw : ∀ c ∈ raw, (c == '-') = false := by
    intro c hc
    by_contra hbc
    simp only [Bool.not_eq_false, beq_iff_eq] at hbc
    exact hh (List.mem_filter.mpr ⟨hbc ▸ hc, by decide⟩)
  have hw : strip_non_digit_hyphen raw = raw.filter Char.isDigit := by
    unfold strip_non_digit_hyphen
    exact List.filter_congr (fun c hc => by rw [hraw c hc, Bool.or_false])
  have hall : ∀ c ∈ raw.filter Char.isDigit, c.isDigit = true :=
    fun c hc => (List.mem_filter.mp hc).2
  have hdig : pyIsdigit (raw.filter Char.isDigit) = true := by
    simp only [pyIsdigit, Bool.and_eq_true, List.all_eq_true]
    refine ⟨?_, hall⟩
    simp only [Bool.not_eq_true', List.isEmpty_eq_false, ne_eq]
    intro hnil
    rw [hnil] at h9
    simp at h9
  have hcz : clean_zip (raw.filter Char.isDigit) =
      some ((raw.filter Char.isDigit).take 5) := by
    rw [clean_zip_all_digits _ hdig, if_neg (by omega), if_pos h9]
  have hmask : valid_mask (clean_zip (strip_non_digit_hyphen raw)) = true := by
    rw [hw, hcz]
    simp only [valid_mask, Bool.and_eq_true, decide_eq_true_eq]
    refine ⟨by rw [List.length_take, h9]; decide, ?_⟩
    simp only [pyIsdigit, Bool.and_eq_true, List.all_eq_true]
    refine ⟨?_, fun c hc => hall c (List.take_subset 5 _ hc)⟩
    simp only [Bool.not_eq_true', List.isEmpty_eq_false, ne_eq]
    intro hnil
    have := congrArg List.length hnil
    rw [List.length_take, h9, List.length_nil] at this
    omega
  unfold row_invalid_diagnosis
  simp only [hmask, if_true]

/-- C9 witness: the hyphen-free nine-digit raw value "123456789" lands in the
valid partition and is never diagnosed. -/
theorem nine_digit_hyphen_free_not_diagnosed_witness :
    row_invalid_diagnosis "123456789".toList = none :=
  nine_digit_hyphen_free_not_diagnosed "123456789".toList (by decide) (by decide)

/-! The dataset loader's column handling (app.py lines 63-125). -/

/-- The header synonym table of app.py lines 73-103. -/
def column_mapping : List (List Char × List Char) := [
  ("terminal".toList, "terminal".toList),
  ("customer code".toList, "customer_code".toList),
  ("ownership".toList, "ownership".toList),
  ("location".toList, "location".toList),
  ("address".toList, "address".toList),
  ("city".toList, "city".toList),
  ("st".toList, "state".toList),
  ("zip".toList, "zip".toList),
  ("zip long".toList, "zip_long".toList),
  ("zip short".toList, "zip_short".toList),
  ("dma code".toList, "dma_code".toList),
  ("dma description".toList, "dma_description".toList),
  ("make".toList, "make".toList),
  ("model".toList, "model".toList),
  ("parent chain business".toList, "parent_chain_business".toList),
  ("naics category".toList, "naics_category".toList),
  ("naics sector".toList, "naics_sector".toList),
  ("lob".toList, "lob".toList),
  ("cbm category".toList, "cbm_category".toList),
  ("cbm level".toList, "cbm_level".toList),
  ("avg transactions".toList, "avg_transactions".toList),
  ("avg cash dispensed".toList, "avg_cash_dispensed".toList),
  ("most recent month trx".toList, "most_recent_month_trx".toList),
  ("most recent month cd".toList, "most_recent_month_cd".toList),
  ("machine style code (3 digit code)".toList, "machine_style_code".toList),
  ("display surfaces code (lcr)".toList, "display_surfaces_code".toList),
  ("location type code (2 digits)".toList, "location_type_code".toList),
  ("permanent or tenmp (perm 1, temp 0)".toList, "permanent_or_temp".toList),
  ("inside or outside ( 1 inside, 0 outside)".toList, "inside_or_outside".toList)]

/-- pandas DataFrame.rename(columns=column_mapping): a mapped header is
replaced, every other header passes through untouched. -/
def rename_column (c : List Char) : List Char :=
  match column_mapping.lookup c with
  | some c2 => c2
  | none => c

/-- The required columns of app.py line 109. -/
def required_cols : List (List Char) :=
  ["terminal".toList, "location".toList, "address".toList, "city".toList, "state".toList]

/-- Outcome of the column checks in load_excel_file: the two LoadError cases
(st.error + return False in the source, lines 112-114 and 123-125) and the
success case carrying which column feeds working_zip (lines 116-122). -/
inductive LoadOutcome where
  | missingRequiredColumns (missing : List (List Char))
  | ok (zip_source : List Char)
  | noPostalColumn
deriving DecidableEq

/-- Headers after the normalization of app.py lines 70 and 106: strip,
lowercase, then rename through the synonym table. -/
def mapped_columns (cols : List (List Char)) : List (List Char) :=
  (cols.map (fun c => pyLower (pyStrip c))).map rename_column

/-- Column handling of load_excel_file (app.py lines 108-125): check the five
required columns, then pick the zip source, preferring zip_short over zip. -/
def load_excel_columns (cols : List (List Char)) : LoadOutcome :=
  let missing_cols := required_cols.filter (fun c => !(mapped_columns cols).contains c)
  if missing_cols ≠ [] then .missingRequiredColumns missing_cols
  else if (mapped_columns cols).contains "zip_short".toList then .ok "zip_short".toList
  else if (mapped_columns cols).contains "zip".toList then .ok "zip".toList
  else .noPostalColumn

lemma contains_iff_mem {s : List (List Char)} {a : List Char} :
    s.contains a = true ↔ a ∈ s := by
  constructor
  · exact fun h => List.mem_of_elem_eq_true (by simpa [List.contains] using h)
  · exact fun h => by simpa [List.contains] using List.elem_eq_true_of_mem h

/-- C7: the loader fails with MissingRequiredColumns exactly when one of
{terminal, location, address, city, state} is absent after header
normalization and synonym mapping, and fails with NoPostalColumn exactly when
the required columns are all present but neither zip_short nor zip exists. -/
theorem load_excel_columns_spec (cols : List (List Char)) :
    ((∃ m, load_excel_columns cols = LoadOutcome.missingRequiredColumns m) ↔
      ∃ r ∈ required_cols, r ∉ mapped_columns cols) ∧
    (load_excel_columns cols = LoadOutcome.noPostalColumn ↔
      ((∀ r ∈ required_cols, r ∈ mapped_columns cols) ∧
       "zip_short".toList ∉ mapped_columns cols ∧
       "zip".toList ∉ mapped_columns cols)) := by
  by_cases hm : required_cols.filter (fun c => !(mapped_columns cols).contains c) = []
  · have hreq : ∀ r ∈ required_cols, r ∈ mapped_columns cols := by
      intro r hr
      have hp := List.filter_eq_nil_iff.mp hm r hr
      simp only [Bool.not_eq_true', Bool.not_eq_false] at hp
      exact contains_iff_mem.mp hp
    have hload : load_excel_columns cols =
        (if (mapped_columns cols).contains "zip_short".toList then
           LoadOutcome.ok "zip_short".toList
         else if (mapped_columns cols).contains "zip".toList then
           LoadOutcome.ok "zip".toList
         else LoadOutcome.noPostalColumn) := by
      unfold load_excel_columns
      rw [if_neg (not_not_intro hm)]
    constructor
    · constructor
      · rintro ⟨m, hm2⟩
        rw [hload] at hm2
        split at hm2
        · exact absurd hm2 (by simp)
        · split at hm2
          · exact absurd hm2 (by simp)
          · exact absurd hm2 (by simp)
      · rintro ⟨r, hr, hnm⟩
        exact absurd (hreq r hr) hnm
    · rw [hload]
      by_cases h1 : (mapped_columns cols).contains "zip_short".toList = true
      · rw [if_pos h1]
        constructor
        · intro h; exact absurd h (by simp)
        · rintro ⟨-, hns, -⟩; exact absurd (contains_iff_mem.mp h1) hns
      · by_cases h2 : (mapped_columns cols).contains "zip".toList = true
        · rw [if_neg h1, if_pos h2]
          constructor
          · intro h; exact absurd h (by simp)
          · rintro ⟨-, -, hnz⟩; exact absurd (contains_iff_mem.mp h2) hnz
        · rw [if_neg h1, if_neg h2]
          exact iff_of_true rfl ⟨hreq,
            fun hmem => h1 (contains_iff_mem.mpr hmem),
            fun hmem => h2 (contains_iff_mem.mpr hmem)⟩
  · obtain ⟨r, hr, hpr⟩ :
        ∃ r ∈ required_cols, (!(mapped_columns cols).contains r) = true := by
      by_contra hno
      push_neg at hno
      exact hm (List.filter_eq_nil_iff.mpr (fun a ha => hno a ha))
    have hload : load_excel_columns cols = LoadOutcome.missingRequiredColumns
        (required_cols.filter (fun c => !(mapped_columns cols).contains c)) := by
      unfold load_excel_columns
      rw [if_pos hm]
    have hnotmem : r ∉ mapped_columns cols := by
      intro hmem
      rw [contains_iff_mem.mpr hmem] at hpr
      simp at hpr
    constructor
    · exact iff_of_true ⟨_, hload⟩ ⟨r, hr, hnotmem⟩
    · refine iff_of_false (by rw [hload]; simp) ?_
      rintro ⟨hall, -, -⟩
      exact hnotmem (hall r hr)

example : load_excel_columns
    ["Terminal ".toList, "LOCATION".toList, "Address".toList, "City".toList, "St".toList,
     "Zip".toList] = LoadOutcome.ok "zip".toList := by decide
example : load_excel_columns
    ["terminal".toList, "location".toList, "address".toList, "st".toList,
     "zip short".toList] =
    LoadOutcome.missingRequiredColumns ["city".toList] := by decide
example : load_excel_columns
    ["terminal".toList, "location".toList, "address".toList, "city".toList, "st".toList] =
    LoadOutcome.noPostalColumn := by decide

/-! The coordinate resolver and its cache (app.py lines 16-45). -/

/-- What the resolver produces and caches for one zip code: some (lat, lon)
when the lookup succeeds, none for the Absent marker
{'latitude': None, 'longitude': None} written on any failure. -/
abbrev CachedCoords := Option (ℝ × ℝ)

/-- self.zip_coords_cache, a Python dict, as an association list whose most
recent binding wins. -/
abbrev ZipCache := List (List Char × CachedCoords)

/-- The external zippopotam.us service as a fixed oracle: some coordinates
when the request returns status 200 and parses, none for any non-200 status,
timeout or raised exception — app.py lines 39-45 treat all of those alike. -/
abbrev ZipOracle := List Char → CachedCoords

/-- get_zip_coordinates (app.py lines 22-45): cache lookup first; on a miss,
one external lookup whose outcome — success or failure — is written to the
cache before returning. The Nat counts external lookups this call issued. -/
def get_zip_coordinates (oracle : ZipOracle) (cache : ZipCache) (zip_code : List Char) :
    CachedCoords × ZipCache × Nat :=
  match cache.lookup zip_code with
  | some coords => (coords, cache, 0)
  | none =>
    match oracle zip_code with
    | some c => (some c, (zip_code, some c) :: cache, 1)
    | none => (none, (zip_code, none) :: cache, 1)

/-- A session tail: further resolver calls for arbitrary zip codes, threading
the cache forward. -/
def run_zip_session (oracle : ZipOracle) (cache : ZipCache) :
    List (List Char) → ZipCache
  | [] => cache
  | z :: rest => run_zip_session oracle (get_zip_coordinates oracle cache z).2.1 rest

lemma get_zip_hit (oracle : ZipOracle) (cache : ZipCache) (z : List Char)
    (v : CachedCoords) (h : cache.lookup z = some v) :
    get_zip_coordinates oracle cache z = (v, cache, 0) := by
  unfold get_zip_coordinates
  rw [h]

lemma get_zip_stores (oracle : ZipOracle) (cache : ZipCache) (z : List Char) :
    (get_zip_coordinates oracle cache z).2.1.lookup z =
      some (get_zip_coordinates oracle cache z).1 := by
  unfold get_zip_coordinates
  cases hw : cache.lookup z with
  | some c => simpa using hw
  | none => cases oracle z with
    | some c => simp [List.lookup]
    | none => simp [List.lookup]

lemma lookup_preserved (oracle : ZipOracle) (cache : ZipCache) (w z : List Char)
    (v : CachedCoords) (h : cache.lookup z = some v) :
    (get_zip_coordinates oracle cache w).2.1.lookup z = some v := by
  unfold get_zip_coordinates
  cases hw : cache.lookup w with
  | some c => exact h
  | none =>
    have hzw : (z == w) = false := by
      refine beq_eq_false_iff_ne.mpr ?_
      intro hz
      rw [← hz, h] at hw
      exact absurd hw (by simp)
    cases oracle w with
    | some c => simp only [List.lookup, hzw]; exact h
    | none => simp only [List.lookup, hzw]; exact h

lemma lookup_preserved_session (oracle : ZipOracle) (qs : List (List Char))
    (cache : ZipCache) (z : List Char) (v : CachedCoords)
    (h : cache.lookup z = some v) :
    (run_zip_session oracle cache qs).lookup z = some v := by
  induction qs generalizing cache with
  | nil => exact h
  | cons q rest ih => exact ih _ (lookup_preserved oracle cache q z v h)

/-- C3: after one resolver call for z, the call's result — coordinates or the
Absent marker — sits in the cache under z; calling again immediately, or
after any further session of calls, returns exactly the cached value with
zero additional external lookups; and on a fresh code whose external lookup
fails, the Absent result is produced and cached the same way, so it is never
retried. -/
theorem get_zip_coordinates_cache_spec (oracle : ZipOracle) (cache : ZipCache)
    (z : List Char) (qs : List (List Char)) :
    ((get_zip_coordinates oracle cache z).2.1.lookup z =
       some (get_zip_coordinates oracle cache z).1) ∧
    (get_zip_coordinates oracle (get_zip_coordinates oracle cache z).2.1 z =
       ((get_zip_coordinates oracle cache z).1,
        (get_zip_coordinates oracle cache z).2.1, 0)) ∧
    (get_zip_coordinates oracle
        (run_zip_session oracle (get_zip_coordinates oracle cache z).2.1 qs) z =
       ((get_zip_coordinates oracle cache z).1,
        run_zip_session oracle (get_zip_coordinates oracle cache z).2.1 qs, 0)) ∧
    (cache.lookup z = none → oracle z = none →
      (get_zip_coordinates oracle cache z).1 = none ∧
      (get_zip_coordinates oracle cache z).2.1.lookup z = some none) := by
  refine ⟨get_zip_stores oracle cache z,
    get_zip_hit _ _ _ _ (get_zip_stores oracle cache z),
    get_zip_hit _ _ _ _
      (lookup_preserved_session oracle qs _ z _ (get_zip_stores oracle cache z)),
    fun hmiss habs => ?_⟩
  unfold get_zip_coordinates
  rw [hmiss, habs]
  simp [List.lookup]

/-! The distance calculator (app.py lines 47-61), over the reals. -/

/-- math.radians: degrees to radians. -/
noncomputable def radians (x : ℝ) : ℝ := x * (Real.pi / 180)

/-- The intermediate value a of haversine_distance (app.py line 55), with
dlat = lat2 - lat1 and dlon = lon2 - lon1 in radians. -/
noncomputable def haversine_a (lat1 lon1 lat2 lon2 : ℝ) : ℝ :=
  Real.sin ((radians lat2 - radians lat1) / 2) ^ 2 +
    Real.cos (radians lat1) * Real.cos (radians lat2) *
      Real.sin ((radians lon2 - radians lon1) / 2) ^ 2

/-- haversine_distance (app.py lines 47-61): c * r with
c = 2 * asin(sqrt(a)) and r = 3956 miles. -/
noncomputable def haversine_distance (lat1 lon1 lat2 lon2 : ℝ) : ℝ :=
  2 * Real.arcsin (Real.sqrt (haversine_a lat1 lon1 lat2 lon2)) * 3956

lemma sin_sq_half (x : ℝ) : Real.sin (x / 2) ^ 2 = 1 / 2 - Real.cos x / 2 := by
  have h := Real.sin_sq_eq_half_sub (x := x / 2)
  rwa [show 2 * (x / 2) = x by ring] at h

lemma hav_form_bounds (p q d : ℝ) :
    0 ≤ Real.sin ((q - p) / 2) ^ 2 + Real.cos p * Real.cos q * Real.sin (d / 2) ^ 2 ∧
    Real.sin ((q - p) / 2) ^ 2 + Real.cos p * Real.cos q * Real.sin (d / 2) ^ 2 ≤ 1 := by
  have h1 := sin_sq_half (q - p)
  have h2 := sin_sq_half d
  have h3 := Real.cos_sub q p
  have hs1 := Real.sin_sq_add_cos_sq p
  have hs2 := Real.sin_sq_add_cos_sq q
  have hs3 := Real.sin_sq_add_cos_sq d
  constructor
  · nlinarith [sq_nonneg (Real.sin p - Real.sin q),
      sq_nonneg (Real.cos p - Real.cos q * Real.cos d),
      sq_nonneg (Real.cos q * Real.sin d)]
  · nlinarith [sq_nonneg (Real.sin p + Real.sin q),
      sq_nonneg (Real.cos p + Real.cos q * Real.cos d),
      sq_nonneg (Real.cos q * Real.sin d)]

lemma haversine_a_nonneg (lat1 lon1 lat2 lon2 : ℝ) :
    0 ≤ haversine_a lat1 lon1 lat2 lon2 :=
  (hav_form_bounds (radians lat1) (radians lat2) (radians lon2 - radians lon1)).1

lemma haversine_a_le_one (lat1 lon1 lat2 lon2 : ℝ) :
    haversine_a lat1 lon1 lat2 lon2 ≤ 1 :=
  (hav_form_bounds (radians lat1) (radians lat2) (radians lon2 - radians lon1)).2

lemma haversine_nonneg (lat1 lon1 lat2 lon2 : ℝ) :
    0 ≤ haversine_distance lat1 lon1 lat2 lon2 := by
  unfold haversine_distance
  have h := Real.arcsin_nonneg.mpr (Real.sqrt_nonneg (haversine_a lat1 lon1 lat2 lon2))
  nlinarith

lemma haversine_le_pi_r (lat1 lon1 lat2 lon2 : ℝ) :
    haversine_distance lat1 lon1 lat2 lon2 ≤ Real.pi * 3956 := by
  unfold haversine_distance
  have h := Real.arcsin_le_pi_div_two (Real.sqrt (haversine_a lat1 lon1 lat2 lon2))
  nlinarith

lemma haversine_a_self (lat lon : ℝ) : haversine_a lat lon lat lon = 0 := by
  unfold haversine_a
  simp

lemma haversine_self (lat lon : ℝ) : haversine_distance lat lon lat lon = 0 := by
  unfold haversine_distance
  rw [haversine_a_self, Real.sqrt_zero, Real.arcsin_zero]
  ring

lemma haversine_a_symm (lat1 lon1 lat2 lon2 : ℝ) :
    haversine_a lat1 lon1 lat2 lon2 = haversine_a lat2 lon2 lat1 lon1 := by
  unfold haversine_a
  rw [show (radians lat1 - radians lat2) / 2 = -((radians lat2 - radians lat1) / 2) by ring,
      show (radians lon1 - radians lon2) / 2 = -((radians lon2 - radians lon1) / 2) by ring,
      Real.sin_neg, Real.sin_neg]
  ring

lemma haversine_symm (lat1 lon1 lat2 lon2 : ℝ) :
    haversine_distance lat1 lon1 lat2 lon2 = haversine_distance lat2 lon2 lat1 lon1 := by
  unfold haversine_distance
  rw [haversine_a_symm]

/-- C8: haversine_distance, the haversine great-circle formula on a sphere of
radius 3956 miles over degree inputs converted to radians, vanishes on equal
points, is symmetric in its two points, and is nonnegative everywhere. -/
theorem haversine_distance_spec (lat1 lon1 lat2 lon2 : ℝ) :
    haversine_distance lat1 lon1 lat1 lon1 = 0 ∧
    haversine_distance lat1 lon1 lat2 lon2 = haversine_distance lat2 lon2 lat1 lon1 ∧
    0 ≤ haversine_distance lat1 lon1 lat2 lon2 :=
  ⟨haversine_self lat1 lon1, haversine_symm lat1 lon1 lat2 lon2,
   haversine_nonneg lat1 lon1 lat2 lon2⟩

/-- C10 amended: for every real input — latitudes inside [-90, 90] or not —
the intermediate value a of haversine_distance lies in [0, 1], so sqrt and
asin are applied within their domains, and the result lies in
[0, pi * 3956]. -/
theorem haversine_domain_spec (lat1 lon1 lat2 lon2 : ℝ) :
    0 ≤ haversine_a lat1 lon1 lat2 lon2 ∧ haversine_a lat1 lon1 lat2 lon2 ≤ 1 ∧
    0 ≤ haversine_distance lat1 lon1 lat2 lon2 ∧
    haversine_distance lat1 lon1 lat2 lon2 ≤ Real.pi * 3956 :=
  ⟨haversine_a_nonneg lat1 lon1 lat2 lon2, haversine_a_le_one lat1 lon1 lat2 lon2,
   haversine_nonneg lat1 lon1 lat2 lon2, haversine_le_pi_r lat1 lon1 lat2 lon2⟩

/-- C10 counterexample: at lat1 = 100 (outside [-90, 90]), lat2 = 80, with a
180-degree longitude difference — the input that makes the negative
cos(lat1) * cos(lat2) term as damaging as possible — a is exactly 0, not
negative: the claimed loss of the sqrt/asin domain guarantee outside the
latitude range does not happen. -/
theorem haversine_a_outside_latitude_range_nonneg :
    Real.cos (radians 100) * Real.cos (radians 80) < 0 ∧
    haversine_a 100 0 80 180 = 0 ∧
    ¬ ((100 : ℝ) ≤ 90) := by
  refine ⟨?_, ?_, by norm_num⟩
  · have h100 : radians 100 = Real.pi - radians 80 := by unfold radians; ring
    have hc : Real.cos (radians 100) = -Real.cos (radians 80) := by
      rw [h100, Real.cos_pi_sub]
    have hpos : 0 < Real.cos (radians 80) := by
      apply Real.cos_pos_of_mem_Ioo
      constructor
      · unfold radians; nlinarith [Real.pi_pos]
      · unfold radians; nlinarith [Real.pi_pos]
    rw [hc]
    nlinarith
  · unfold haversine_a
    have h1 : (radians 80 - radians 100) / 2 = -(Real.pi / 18) := by unfold radians; ring
    have h2 : (radians 180 - radians 0) / 2 = Real.pi / 2 := by unfold radians; ring
    have h3 : radians 100 = Real.pi - radians 80 := by unfold radians; ring
    have h4 : Real.cos (radians 80) = Real.sin (Real.pi / 18) := by
      rw [show Real.pi / 18 = Real.pi / 2 - radians 80 by unfold radians; ring,
        Real.sin_pi_div_two_sub]
    rw [h1, h2, h3, Real.cos_pi_sub, Real.sin_neg, Real.sin_pi_div_two, h4]
    ring

/-! The radius search engine (app.py lines 272-318). -/

/-- One dataset row as the search loop reads it: its ingestion position and
the latitude/longitude columns, which are NaN (none) when coordinate
resolution failed for its zip code. -/
structure AtmRecord where
  idx : Nat
  latitude : Option ℝ
  longitude : Option ℝ

/-- The distance computed for one row (app.py lines 288-297): the haversine
distance when both coordinates are notna, float('inf') — modelled as the top
element of WithTop ℝ — otherwise. -/
noncomputable def row_distance (search_lat search_lon : ℝ) (r : AtmRecord) : WithTop ℝ :=
  match r.latitude, r.longitude with
  | some lat, some lon => ((haversine_distance search_lat search_lon lat lon : ℝ) : WithTop ℝ)
  | _, _ => ⊤

/-- The row filter of app.py lines 303-306:
(distance_miles <= radius_miles) & (distance_miles != inf). -/
noncomputable def within_radius (radius_miles : ℝ) (p : AtmRecord × WithTop ℝ) : Bool :=
  decide (p.2 ≤ (radius_miles : WithTop ℝ)) && decide (p.2 ≠ ⊤)

/-- pandas Series.round(2) on one distance entry: round to 2 decimal places.
numpy rounds IEEE doubles half-to-even; over the reals we use Mathlib round
(half-up), which agrees everywhere except exactly at odd multiples of 0.005,
and no claim depends on midpoint behaviour. -/
noncomputable def round2 (x : ℝ) : ℝ := ((round (x * 100) : ℤ) : ℝ) / 100

/-- The distance column of app.py lines 286-300, one entry per row of the
dataset, in row order. -/
noncomputable def with_distances (records : List AtmRecord) (search_lat search_lon : ℝ) :
    List (AtmRecord × WithTop ℝ) :=
  records.map (fun r => (r, row_distance search_lat search_lon r))

/-- Rows surviving the radius filter of app.py lines 303-306, still in
ingestion order. -/
noncomputable def filtered_rows (records : List AtmRecord)
    (search_lat search_lon radius_miles : ℝ) : List (AtmRecord × WithTop ℝ) :=
  (with_distances records search_lat search_lon).filter (within_radius radius_miles)

/-- What pandas documents for the sort at app.py line 309,
sort_values('distance_miles') with the default kind='quicksort': the output is
a permutation of the input that ascends in the sort key. Stability is NOT part
of this contract — quicksort is documented as not stable and the tie order is
platform dependent — so the sort is a parameter constrained exactly this
much. -/
def SortsByDistance
    (sort_impl : List (AtmRecord × WithTop ℝ) → List (AtmRecord × WithTop ℝ))
    (l : List (AtmRecord × WithTop ℝ)) : Prop :=
  (sort_impl l).Perm l ∧ (sort_impl l).Pairwise (fun p q => p.2 ≤ q.2)

/-- search_atms_by_radius (app.py lines 285-314) after target resolution:
compute the distance column, filter by radius, sort by distance, round the
distance column for display. -/
noncomputable def search_atms_by_radius
    (sort_impl : List (AtmRecord × WithTop ℝ) → List (AtmRecord × WithTop ℝ))
    (records : List AtmRecord) (search_lat search_lon radius_miles : ℝ) :
    List (AtmRecord × WithTop ℝ) :=
  (sort_impl (filtered_rows records search_lat search_lon radius_miles)).map
    (fun p => (p.1, p.2.map round2))

lemma round2_mono {x y : ℝ} (h : x ≤ y) : round2 x ≤ round2 y := by
  unfold round2
  have hr : round (x * 100) ≤ round (y * 100) := by
    rw [round_eq, round_eq]
    exact Int.floor_mono (by linarith)
  have hc : ((round (x * 100) : ℤ) : ℝ) ≤ ((round (y * 100) : ℤ) : ℝ) := by exact_mod_cast hr
  linarith

lemma withtop_map_round2_mono {a b : WithTop ℝ} (h : a ≤ b) :
    a.map round2 ≤ b.map round2 := by
  cases a with
  | top => rw [WithTop.top_le_iff] at h; subst h; exact le_refl _
  | coe x =>
    cases b with
    | top => exact le_top
    | coe y =>
      rw [WithTop.coe_le_coe] at h
      rw [WithTop.map_coe, WithTop.map_coe, WithTop.coe_le_coe]
      exact round2_mono h

lemma within_radius_iff (radius_miles search_lat search_lon : ℝ) (r : AtmRecord) :
    within_radius radius_miles (r, row_distance search_lat search_lon r) = true ↔
      ∃ lat lon, r.latitude = some lat ∧ r.longitude = some lon ∧
        haversine_distance search_lat search_lon lat lon ≤ radius_miles := by
  unfold within_radius row_distance
  cases hla : r.latitude with
  | none => simp
  | some lat =>
    cases hlo : r.longitude with
    | none => simp
    | some lon =>
      simp only [Bool.and_eq_true, decide_eq_true_eq, WithTop.coe_le_coe, ne_eq,
        WithTop.coe_ne_top, not_false_eq_true, and_true, Option.some.injEq]
      constructor
      · intro hle
        exact ⟨lat, lon, rfl, rfl, hle⟩
      · rintro ⟨la, lo, hla2, hlo2, hle⟩
        rw [← hla2, ← hlo2] at hle
        exact hle

lemma filtered_rows_eq (records : List AtmRecord)
    (search_lat search_lon radius_miles : ℝ) :
    filtered_rows records search_lat search_lon radius_miles =
      (records.filter
        (fun r => within_radius radius_miles (r, row_distance search_lat search_lon r))).map
        (fun r => (r, row_distance search_lat search_lon r)) := by
  unfold filtered_rows with_distances
  rw [List.filter_map]
  rfl

/-- C1 amended: for every dataset, target coordinate and radius, and every
sort behaviour within pandas' documented contract for the default quicksort,
the search result contains exactly the records with present coordinates whose
haversine distance to the target is at most the radius (records with Absent
coordinates are excluded for every radius), ordered ascending by distance;
the order of equal distances is whatever the sort produced — ingestion order
is not guaranteed. -/
theorem search_atms_by_radius_spec
    (sort_impl : List (AtmRecord × WithTop ℝ) → List (AtmRecord × WithTop ℝ))
    (records : List AtmRecord) (search_lat search_lon radius_miles : ℝ)
    (hsort : SortsByDistance sort_impl (filtered_rows records search_lat search_lon radius_miles)) :
    ((search_atms_by_radius sort_impl records search_lat search_lon radius_miles).map
        Prod.fst).Perm
      (records.filter
        (fun r => within_radius radius_miles (r, row_distance search_lat search_lon r))) ∧
    (∀ r : AtmRecord,
      within_radius radius_miles (r, row_distance search_lat search_lon r) = true ↔
        ∃ lat lon, r.latitude = some lat ∧ r.longitude = some lon ∧
          haversine_distance search_lat search_lon lat lon ≤ radius_miles) ∧
    (search_atms_by_radius sort_impl records search_lat search_lon radius_miles).Pairwise
      (fun p q => p.2 ≤ q.2) := by
  obtain ⟨hperm, hsorted⟩ := hsort
  refine ⟨?_, fun r => within_radius_iff radius_miles search_lat search_lon r, ?_⟩
  · unfold search_atms_by_radius
    rw [List.map_map]
    have hfst : (Prod.fst ∘ fun p : AtmRecord × WithTop ℝ => (p.1, p.2.map round2)) =
        Prod.fst := rfl
    rw [hfst]
    have h2 : (filtered_rows records search_lat search_lon radius_miles).map Prod.fst =
        records.filter
          (fun r => within_radius radius_miles (r, row_distance search_lat search_lon r)) := by
      rw [filtered_rows_eq, List.map_map]
      exact List.map_id'' (fun x => rfl) _
    have h1 := hperm.map Prod.fst
    rw [h2] at h1
    exact h1
  · unfold search_atms_by_radius
    exact hsorted.map _ (fun a b hab => withtop_map_round2_mono hab)

/-- The two concrete records used by the witnesses and counterexamples below:
both resolve to the search centre itself, so both are at distance 0. -/
def rec0 : AtmRecord := ⟨0, some 0, some 0⟩

def rec1 : AtmRecord := ⟨1, some 0, some 0⟩

lemma row_distance_rec0 : row_distance 0 0 rec0 = ((0 : ℝ) : WithTop ℝ) := by
  show ((haversine_distance 0 0 0 0 : ℝ) : WithTop ℝ) = _
  rw [haversine_self]

lemma row_distance_rec1 : row_distance 0 0 rec1 = ((0 : ℝ) : WithTop ℝ) := by
  show ((haversine_distance 0 0 0 0 : ℝ) : WithTop ℝ) = _
  rw [haversine_self]

lemma within_radius_zero_one (r : AtmRecord) :
    within_radius 1 (r, ((0 : ℝ) : WithTop ℝ)) = true := by
  unfold within_radius
  simp only [Bool.and_eq_true, decide_eq_true_eq]
  exact ⟨WithTop.coe_le_coe.mpr (by norm_num), WithTop.coe_ne_top⟩

lemma filtered_rows_one : filtered_rows [rec0] 0 0 1 = [(rec0, ((0 : ℝ) : WithTop ℝ))] := by
  unfold filtered_rows with_distances
  simp only [List.map_cons, List.map_nil, row_distance_rec0, List.filter_cons,
    List.filter_nil, within_radius_zero_one, if_true]

lemma filtered_rows_two : filtered_rows [rec0, rec1] 0 0 1 =
    [(rec0, ((0 : ℝ) : WithTop ℝ)), (rec1, ((0 : ℝ) : WithTop ℝ))] := by
  unfold filtered_rows with_distances
  simp only [List.map_cons, List.map_nil, row_distance_rec0, row_distance_rec1,
    List.filter_cons, List.filter_nil, within_radius_zero_one, if_true]

/-- C1 witness: a one-record dataset at the search centre with radius 1 and
the identity as the (here trivially conforming) sort. -/
theorem search_atms_by_radius_spec_witness :
    ((search_atms_by_radius id [rec0] 0 0 1).map Prod.fst).Perm
      ([rec0].filter (fun r => within_radius 1 (r, row_distance 0 0 r))) ∧
    (∀ r : AtmRecord,
      within_radius 1 (r, row_distance 0 0 r) = true ↔
        ∃ lat lon, r.latitude = some lat ∧ r.longitude = some lon ∧
          haversine_distance 0 0 lat lon ≤ 1) ∧
    (search_atms_by_radius id [rec0] 0 0 1).Pairwise (fun p q => p.2 ≤ q.2) :=
  search_atms_by_radius_spec id [rec0] 0 0 1
    ⟨List.Perm.refl _, by rw [id_eq, filtered_rows_one]; exact List.pairwise_singleton _ _⟩

/-- C1 counterexample: reversing is within the documented contract of the
code's sort on a two-record tie (it is a permutation, ascending in the key),
yet it returns the tied records in the opposite of ingestion order — the
stable-tie part of the claim is not guaranteed by the code. -/
theorem search_ties_not_in_ingestion_order :
    SortsByDistance List.reverse (filtered_rows [rec0, rec1] 0 0 1) ∧
    (search_atms_by_radius List.reverse [rec0, rec1] 0 0 1).map Prod.fst = [rec1, rec0] ∧
    rec1 ≠ rec0 := by
  refine ⟨⟨List.reverse_perm _, ?_⟩, ?_, ?_⟩
  · rw [filtered_rows_two]
    simp [List.pairwise_cons]
  · unfold search_atms_by_radius
    rw [filtered_rows_two]
    rfl
  · intro h
    have := congrArg AtmRecord.idx h
    simp [rec0, rec1] at this

/-- What search_atms_by_radius hands back to its caller and to the UI: the
returned DataFrame (results), the st.error texts displayed as a side effect —
main cannot branch on them — and the resolver cache's new state. -/
structure SearchOutput where
  results : List (AtmRecord × WithTop ℝ)
  error_messages : List (List Char)
  cache : ZipCache

/-- search_atms_by_radius including target resolution (app.py lines 272-318):
resolve the target zip through get_zip_coordinates; when its latitude is None,
display an st.error message and return an empty DataFrame; otherwise run the
distance/filter/sort pipeline. No format validation of search_zip happens
here — the only 5-digit check in the program is in main, line 451. -/
noncomputable def search_atms_full
    (sort_impl : List (AtmRecord × WithTop ℝ) → List (AtmRecord × WithTop ℝ))
    (oracle : ZipOracle) (cache : ZipCache) (records : List AtmRecord)
    (search_zip : List Char) (radius_miles : ℝ) : SearchOutput :=
  match (get_zip_coordinates oracle cache search_zip).1 with
  | none =>
      ⟨[], ["Could not find coordinates for zip code: ".toList ++ search_zip],
       (get_zip_coordinates oracle cache search_zip).2.1⟩
  | some (search_lat, search_lon) =>
      ⟨search_atms_by_radius sort_impl records search_lat search_lon radius_miles, [],
       (get_zip_coordinates oracle cache search_zip).2.1⟩

/-- The zip-format validation in main (app.py line 451):
len(search_zip) == 5 and search_zip.isdigit(). -/
def main_zip_gate (search_zip : List Char) : Bool :=
  decide (search_zip.length = 5) && pyIsdigit search_zip

/-- The branch main takes on the returned results (app.py line 455):
not results.empty. -/
def main_results_branch (results : List (AtmRecord × WithTop ℝ)) : Bool :=
  !results.isEmpty

lemma search_radius_one_eval : search_atms_by_radius id [rec0] 0 0 1 =
    [(rec0, WithTop.map round2 ((0 : ℝ) : WithTop ℝ))] := by
  unfold search_atms_by_radius
  rw [filtered_rows_one]
  rfl

lemma search_full_abc :
    search_atms_full id (fun _ => none) [("abc".toList, some ((0 : ℝ), (0 : ℝ)))]
      [rec0] "abc".toList 1 =
      ⟨[(rec0, WithTop.map round2 ((0 : ℝ) : WithTop ℝ))], [],
       [("abc".toList, some ((0 : ℝ), (0 : ℝ)))]⟩ := by
  have hget : get_zip_coordinates (fun _ => none)
      [("abc".toList, some ((0 : ℝ), (0 : ℝ)))] "abc".toList =
      (some ((0 : ℝ), (0 : ℝ)), [("abc".toList, some ((0 : ℝ), (0 : ℝ)))], 0) :=
    get_zip_hit _ _ _ _ (by simp [List.lookup])
  unfold search_atms_full
  rw [hget]
  show SearchOutput.mk (search_atms_by_radius id [rec0] 0 0 1) []
      [("abc".toList, some ((0 : ℝ), (0 : ℝ)))] = _
  rw [search_radius_one_eval]

/-- C4 counterexample: the target "abc" is not a 5-digit code — main's gate
rejects it — yet search_atms_by_radius itself, handed a session whose cache
resolves "abc", searches happily and returns a record with no error: the
search boundary performs no InvalidTargetCode validation. -/
theorem search_accepts_invalid_target :
    main_zip_gate "abc".toList = false ∧
    (search_atms_full id (fun _ => none) [("abc".toList, some ((0 : ℝ), (0 : ℝ)))]
        [rec0] "abc".toList 1).results.map Prod.fst = [rec0] ∧
    (search_atms_full id (fun _ => none) [("abc".toList, some ((0 : ℝ), (0 : ℝ)))]
        [rec0] "abc".toList 1).error_messages = [] := by
  refine ⟨by decide, ?_, ?_⟩
  · rw [search_full_abc]; rfl
  · rw [search_full_abc]


/-- C4 amended: the 5-digit validation of the target code is enforced only at
the caller/UI boundary — main's gate passes exactly the 5-digit all-digit
strings — while the search engine itself validates nothing and serves any
target its resolver can supply coordinates for, as the concrete non-5-digit
target "abc" shows. -/
theorem zip_validation_only_in_main (z : List Char) :
    (main_zip_gate z = true ↔ z.length = 5 ∧ z.all Char.isDigit = true) ∧
    (search_atms_full id (fun _ => none) [("abc".toList, some ((0 : ℝ), (0 : ℝ)))]
        [rec0] "abc".toList 1).results.map Prod.fst = [rec0] ∧
    (search_atms_full id (fun _ => none) [("abc".toList, some ((0 : ℝ), (0 : ℝ)))]
        [rec0] "abc".toList 1).error_messages = [] := by
  refine ⟨?_, by rw [search_full_abc]; rfl, by rw [search_full_abc]⟩
  unfold main_zip_gate pyIsdigit
  simp only [Bool.and_eq_true, decide_eq_true_eq, Bool.not_eq_true',
    List.isEmpty_eq_false, ne_eq]
  constructor
  · rintro ⟨h5, -, hall⟩
    exact ⟨h5, hall⟩
  · rintro ⟨h5, hall⟩
    refine ⟨h5, ?_, hall⟩
    intro hnil
    rw [hnil] at h5
    simp at h5

/-- C6 amended: when the target code resolves to Absent, the search displays
an st.error message as a UI side effect but RETURNS an empty result — there is
no distinct error value in the returned data for the caller to branch on. -/
theorem search_unresolvable_returns_empty
    (sort_impl : List (AtmRecord × WithTop ℝ) → List (AtmRecord × WithTop ℝ))
    (oracle : ZipOracle) (cache : ZipCache) (records : List AtmRecord)
    (search_zip : List Char) (radius_miles : ℝ)
    (habs : (get_zip_coordinates oracle cache search_zip).1 = none) :
    (search_atms_full sort_impl oracle cache records search_zip radius_miles).results = [] ∧
    (search_atms_full sort_impl oracle cache records search_zip radius_miles).error_messages =
      ["Could not find coordinates for zip code: ".toList ++ search_zip] := by
  unfold search_atms_full
  rw [habs]
  exact ⟨rfl, rfl⟩

/-- C6 witness: a fresh cache and an oracle for which every lookup fails. -/
theorem search_unresolvable_returns_empty_witness :
    (search_atms_full id (fun _ => none) [] [rec0] "99999".toList 1).results = [] ∧
    (search_atms_full id (fun _ => none) [] [rec0] "99999".toList 1).error_messages =
      ["Could not find coordinates for zip code: ".toList ++ "99999".toList] :=
  search_unresolvable_returns_empty id (fun _ => none) [] [rec0] "99999".toList 1 rfl

def recAbsent : AtmRecord := ⟨0, none, none⟩

lemma filtered_rows_absent : filtered_rows [recAbsent] 0 0 1 = [] := by
  unfold filtered_rows with_distances
  simp only [List.map_cons, List.map_nil, List.filter_cons, List.filter_nil]
  rw [show row_distance 0 0 recAbsent = (⊤ : WithTop ℝ) from rfl]
  rw [show within_radius 1 (recAbsent, (⊤ : WithTop ℝ)) = false by
    unfold within_radius; simp]
  simp

lemma search_full_77777 :
    search_atms_full id (fun _ => none) [("77777".toList, some ((0 : ℝ), (0 : ℝ)))]
      [recAbsent] "77777".toList 1 =
      ⟨[], [], [("77777".toList, some ((0 : ℝ), (0 : ℝ)))]⟩ := by
  have hget : get_zip_coordinates (fun _ => none)
      [("77777".toList, some ((0 : ℝ), (0 : ℝ)))] "77777".toList =
      (some ((0 : ℝ), (0 : ℝ)), [("77777".toList, some ((0 : ℝ), (0 : ℝ)))], 0) :=
    get_zip_hit _ _ _ _ (by simp [List.lookup])
  unfold search_atms_full
  rw [hget]
  show SearchOutput.mk (search_atms_by_radius id [recAbsent] 0 0 1) []
      [("77777".toList, some ((0 : ℝ), (0 : ℝ)))] = _
  unfold search_atms_by_radius
  rw [filtered_rows_absent]
  rfl

/-- C6 counterexample: a search whose target cannot be resolved returns the
same empty results value as a successful search in which the only record has
Absent coordinates and so nothing falls within the radius; main's branch on
the returned value (not results.empty) cannot tell the two apart — the only
difference is a displayed message, not an error surfaced in the returned
data. -/
theorem unresolvable_and_empty_results_agree :
    (search_atms_full id (fun _ => none) [] [rec0] "99999".toList 1).results = [] ∧
    (search_atms_full id (fun _ => none) [("77777".toList, some ((0 : ℝ), (0 : ℝ)))]
        [recAbsent] "77777".toList 1).results = [] ∧
    (search_atms_full id (fun _ => none) [("77777".toList, some ((0 : ℝ), (0 : ℝ)))]
        [recAbsent] "77777".toList 1).error_messages = [] ∧
    (search_atms_full id (fun _ => none) [] [rec0] "99999".toList 1).error_messages ≠ [] ∧
    main_results_branch
        (search_atms_full id (fun _ => none) [] [rec0] "99999".toList 1).results =
      main_results_branch
        (search_atms_full id (fun _ => none) [("77777".toList, some ((0 : ℝ), (0 : ℝ)))]
          [recAbsent] "77777".toList 1).results := by
  have h1 : search_atms_full id (fun _ => none) [] [rec0] "99999".toList 1 =
      ⟨[], ["Could not find coordinates for zip code: ".toList ++ "99999".toList],
       [("99999".toList, none)]⟩ := by
    have hget : get_zip_coordinates (fun _ => none) [] "99999".toList =
        (none, [("99999".toList, none)], 1) := rfl
    unfold search_atms_full
    rw [hget]
  rw [h1, search_full_77777]
  refine ⟨rfl, rfl, rfl, by simp, rfl⟩

example : clean_zip "12345-6789".toList = some "12345".toList := by decide
example : clean_zip "123456789".toList = some "12345".toList := by decide
example : clean_zip "123".toList = some "00123".toList := by decide
example : clean_zip "abc".toList = none := by decide
example : row_invalid_diagnosis "abc".toList = some ("Missing/Empty zip code".toList) := by
  decide
example : row_invalid_diagnosis "-123456789".toList =
    some ("Other zip format issue".toList) := by decide
example : row_invalid_diagnosis "123456789".toList = none := by decide
example : diagnose_zip_issue "abc".toList none = "No digits in zip code".toList := by decide
